import Mathlib

/-!
Shallow embedding of the MCP Client Connection Manager of fishcode2025/fishmind
(src/src-tauri/src/mcp/client.rs together with the shared types of
src/src-tauri/src/mcp/types.rs), and proofs of the specification claims about it.

Conventions of the embedding:
* serde JSON values are modelled by the inductive `Json`; serde maps are
  association lists, looked up with `List.lookup` (serde maps carry unique keys,
  and only the first binding of a key is ever observed).
* The registry `HashMap<String, ClientInstance>` is an association list with the
  usual insert-replace / update / remove operations.
* Wall-clock instants (chrono `DateTime<Utc>` values produced by `Utc::now()`)
  are modelled as natural numbers passed in explicitly.
* Effects of the external SDK (transport start, the initialize handshake, the
  remote RPC calls) are passed in as explicit outcome arguments; the duration of
  the remote call inside `call_tool` is an explicit argument measured in
  seconds, compared against the 30-second `tokio::time::timeout` deadline.
* Operations taking `&mut self` in Rust return the updated manager state
  alongside their result; operations taking `&self` leave the state untouched.
* `call_tool` additionally returns the remote invocation it performed -
  `none` when the transport was never reached, `some` with the tool name and
  normalized arguments it handed to the SDK client; the other five forwarding
  operations return a `Bool` flag recording whether the transport was invoked.
* The manager reports errors as `String`s built by fixed format strings; they
  are modelled by the inductive `ManagerError`, one constructor per format
  string, carrying the interpolated data.
* Only the non-Windows branch of the subprocess command resolution is
  modelled (the cfg(not(target_os = windows)) branch, which uses the command
  and arguments verbatim).
-/

/-- JSON values as in serde_json, with objects as association lists. -/
inductive Json where
  | null : Json
  | bool (b : Bool) : Json
  | num (n : Int) : Json
  | str (s : String) : Json
  | arr (elems : List Json) : Json
  | obj (fields : List (String × Json)) : Json
deriving Repr

/-- Transport kinds (types.rs, TransportType): a streaming SSE connection or a
spawned subprocess speaking over stdio. -/
inductive TransportType where
  | sse : TransportType
  | stdio : TransportType
deriving Repr, DecidableEq

/-- Lifecycle status of a client (types.rs, ClientStatus). -/
inductive ClientStatus where
  | disconnected : ClientStatus
  | connecting : ClientStatus
  | connected : ClientStatus
  | error (msg : String) : ClientStatus
deriving Repr, DecidableEq

/-- Negotiated server descriptor (types.rs, ServerInfo); the capability map is
kept as an association list of JSON values. -/
structure ServerInfo where
  name : String
  version : String
  capabilities : List (String × Json)
deriving Repr

/-- The two SDK client specializations wrapped by the manager (client.rs,
McpClientEnum). Each variant records the transport configuration it was
constructed from: the SSE variant the endpoint URL and connection headers, the
stdio variant the command, argument list and environment map handed to
StdioTransport. -/
inductive McpClientEnum where
  | sse (url : String) (headers : List (String × String)) : McpClientEnum
  | stdio (command : String) (args : List String) (env : List (String × String)) : McpClientEnum
deriving Repr

/-- One registered client (client.rs, ClientInstance). -/
structure ClientInstance where
  id : String
  client : McpClientEnum
  status : ClientStatus
  connected_at : Option Nat
  server_info : Option ServerInfo
deriving Repr

/-- The manager: a registry from identifier to client instance (client.rs,
McpClientManager, whose `clients` field is a HashMap). -/
structure McpClientManager where
  clients : List (String × ClientInstance)
deriving Repr

/-- McpClientManager::new - empty registry. -/
def McpClientManager.new : McpClientManager := { clients := [] }

/-- Registration request (types.rs, InitializeClientRequest). -/
structure InitializeClientRequest where
  id : String
  transport_type : TransportType
  sse_url : Option String
  command : Option String
  args : Option (List String)
  headers : Option (List (String × String))
  timeout_secs : Option Nat
  client_name : String
  client_version : String
deriving Repr

/-- Status response (types.rs, ClientStatusResponse). -/
structure ClientStatusResponse where
  id : String
  status : ClientStatus
  error : Option String
  connected_at : Option Nat
  server_info : Option ServerInfo
deriving Repr

/-- Uniform response envelope (types.rs, McpResponse). -/
structure McpResponse (α : Type) where
  success : Bool
  data : Option α
  error : Option String
deriving Repr

/-- types.rs, ToolCallRequest. -/
structure ToolCallRequest where
  client_id : String
  tool_name : String
  params : Json
deriving Repr

/-- types.rs, FilterRequest. -/
structure FilterRequest where
  client_id : String
  filter : Option String
deriving Repr

/-- types.rs, ResourceReadRequest. -/
structure ResourceReadRequest where
  client_id : String
  resource_uri : String
deriving Repr

/-- types.rs, PromptRequest. -/
structure PromptRequest where
  client_id : String
  prompt_name : String
  params : Json
deriving Repr

/-- types.rs, ToolInfo. -/
structure ToolInfo where
  name : String
  description : String
  parameters_schema : Option Json
  result_schema : Option Json
deriving Repr

/-- types.rs, ResourceInfo. -/
structure ResourceInfo where
  uri : String
  description : String
  content_type : String
deriving Repr

/-- types.rs, PromptInfo. -/
structure PromptInfo where
  name : String
  description : String
  parameters_schema : Option Json
deriving Repr

/-- The error kinds of the external SDK (mcp_client Error), matched exhaustively
by the error-mapping table at the end of call_tool; `other` stands for the
wildcard arm of that match. -/
inductive McpError where
  | transport (msg : String) : McpError
  | rpcError (code : Int) (msg : String) : McpError
  | serialization (msg : String) : McpError
  | unexpectedResponse (msg : String) : McpError
  | notInitialized : McpError
  | notReady : McpError
  | timedOut (msg : String) : McpError
  | serverBoxError (msg : String) : McpError
  | mcpServerError (method server source : String) : McpError
  | other (msg : String) : McpError
deriving Repr, DecidableEq

/-- The manager reports failures as Strings; each constructor below corresponds
to exactly one format string in client.rs:
* duplicateIdentifier - Client with ID id already exists;
* missingUrl - URL is required for SSE transport;
* missingCommand - Command is required for Stdio transport;
* transportStartFailed - the transport start error rendered by to_string;
* handshakeFailed - Failed to initialize client: message;
* notFound - Client with ID id not found;
* notConnected - Client with ID id is not connected;
* opFailed - the wrapper call_tool adds around a get_client failure. -/
inductive ManagerError where
  | duplicateIdentifier (id : String) : ManagerError
  | missingUrl : ManagerError
  | missingCommand : ManagerError
  | transportStartFailed (msg : String) : ManagerError
  | handshakeFailed (msg : String) : ManagerError
  | notFound (id : String) : ManagerError
  | notConnected (id : String) : ManagerError
  | opFailed (inner : ManagerError) : ManagerError
deriving Repr, DecidableEq

/-- The error taxonomy of the specification; the kind of a wrapped error is the
kind of the error it wraps. -/
inductive ErrKind where
  | duplicateIdentifier : ErrKind
  | missingConfig : ErrKind
  | transportStartFailed : ErrKind
  | handshakeFailed : ErrKind
  | notFound : ErrKind
  | notConnected : ErrKind
deriving Repr, DecidableEq

/-- Kind of a manager error, looking through the call_tool wrapper. -/
def ManagerError.kind : ManagerError → ErrKind
  | .duplicateIdentifier _ => .duplicateIdentifier
  | .missingUrl => .missingConfig
  | .missingCommand => .missingConfig
  | .transportStartFailed _ => .transportStartFailed
  | .handshakeFailed _ => .handshakeFailed
  | .notFound _ => .notFound
  | .notConnected _ => .notConnected
  | .opFailed e => e.kind

/-- Rendering of SDK errors by the error-mapping table at the end of call_tool
(client.rs lines 821-872); each arm reproduces the corresponding format string
(the Chinese prefixes are those of the source). -/
def renderMcpError : McpError → String
  | .transport m => "传输错误: " ++ m
  | .rpcError code m => "RPC错误: 代码=" ++ toString code ++ ", 消息=" ++ m
  | .serialization m => "序列化错误: " ++ m
  | .unexpectedResponse m => "意外响应: " ++ m
  | .notInitialized => "客户端未初始化"
  | .notReady => "服务未就绪或超时"
  | .timedOut _ => "请求超时"
  | .serverBoxError m => "服务器错误: " ++ m
  | .mcpServerError method server source =>
      "MCP服务器错误: 方法=" ++ method ++ ", 服务器=" ++ server ++ ", 源=" ++ source
  | .other m => "未知错误: " ++ m

/-- Models the Display rendering of the external SDK error type (the SDK lives
outside this repository); the five forwarding operations other than call_tool
put this string in their failure envelopes via to_string. No claim depends on
its exact text. -/
def McpError.display : McpError → String
  | .transport m => m
  | .rpcError code m => toString code ++ ": " ++ m
  | .serialization m => m
  | .unexpectedResponse m => m
  | .notInitialized => "not initialized"
  | .notReady => "not ready"
  | .timedOut m => m
  | .serverBoxError m => m
  | .mcpServerError method server source => method ++ " " ++ server ++ " " ++ source
  | .other m => m

/-- HashMap::insert - replace the binding of the key if present, else append. -/
def mapInsert {α : Type} : List (String × α) → String → α → List (String × α)
  | [], k, v => [(k, v)]
  | (k2, v2) :: rest, k, v =>
      if k2 = k then (k, v) :: rest else (k2, v2) :: mapInsert rest k v

/-- HashMap::get_mut followed by a field update - apply `f` to the binding of
the key, leave every other binding alone. -/
def mapUpdate {α : Type} (m : List (String × α)) (k : String) (f : α → α) :
    List (String × α) :=
  m.map (fun p => if p.1 = k then (p.1, f p.2) else p)

/-- HashMap::remove. -/
def mapRemove {α : Type} (m : List (String × α)) (k : String) : List (String × α) :=
  m.filter (fun p => p.1 ≠ k)

/-- HashMap::contains_key. -/
def mapContains {α : Type} (m : List (String × α)) (k : String) : Bool :=
  (m.lookup k).isSome

/-- Whether a status is Connected (the matches! test used by get_client,
repair_client and the response builders). -/
def ClientStatus.isConnected : ClientStatus → Bool
  | .connected => true
  | _ => false

/-- The error field of a status response (client.rs lines 426-429 and 451-454):
populated exactly when the stored status is the Error variant. -/
def statusErrorField : ClientStatus → Option String
  | .error e => some e
  | _ => none

/-- Environment merging of the stdio branch of initialize_client (client.rs
lines 119-137): start from the caller-supplied header map; when the inherited
process PATH is available, either concatenate it behind an existing caller PATH
entry (separated by a semicolon, caller entry first) or insert it fresh. -/
def mergeEnvPath (headers : Option (List (String × String)))
    (inheritedPath : Option String) : List (String × String) :=
  let env_vars := headers.getD []
  match inheritedPath with
  | some path =>
      match env_vars.lookup "PATH" with
      | some existing_path => mapInsert env_vars "PATH" (existing_path ++ ";" ++ path)
      | none => mapInsert env_vars "PATH" path
  | none => env_vars

/-- McpClientManager::initialize_client (client.rs lines 54-351).
External effects appear as arguments: `inheritedPath` is the result of reading
the process PATH variable, `startResult` the outcome of Transport::start (the
Err message already rendered by to_string), `handshake` the outcome of
McpClient::initialize (already converted to the stored ServerInfo shape, as
lines 299-324 do), and `now` the instant Utc::now returns on success.
Returns the operation result together with the updated registry; every failure
path leaves the registry exactly as it was. -/
def initialize_client (st : McpClientManager) (request : InitializeClientRequest)
    (inheritedPath : Option String) (startResult : Except String Unit)
    (handshake : Except String ServerInfo) (now : Nat) :
    Except ManagerError ClientStatusResponse × McpClientManager :=
  if mapContains st.clients request.id then
    (Except.error (ManagerError.duplicateIdentifier request.id), st)
  else
    let builtClient : Except ManagerError McpClientEnum :=
      match request.transport_type with
      | TransportType.sse =>
          match request.sse_url with
          | none => Except.error ManagerError.missingUrl
          | some url =>
              match startResult with
              | Except.error e => Except.error (ManagerError.transportStartFailed e)
              | Except.ok _ => Except.ok (McpClientEnum.sse url (request.headers.getD []))
      | TransportType.stdio =>
          match request.command with
          | none => Except.error ManagerError.missingCommand
          | some command =>
              let env_vars := mergeEnvPath request.headers inheritedPath
              match startResult with
              | Except.error e => Except.error (ManagerError.transportStartFailed e)
              | Except.ok _ =>
                  Except.ok (McpClientEnum.stdio command (request.args.getD []) env_vars)
    match builtClient with
    | Except.error e => (Except.error e, st)
    | Except.ok client =>
        match handshake with
        | Except.error e => (Except.error (ManagerError.handshakeFailed e), st)
        | Except.ok server_info =>
            let inst : ClientInstance :=
              { id := request.id
                client := client
                status := ClientStatus.connected
                connected_at := some now
                server_info := some server_info }
            (Except.ok
              { id := request.id
                status := ClientStatus.connected
                error := none
                connected_at := some now
                server_info := some server_info },
             { clients := mapInsert st.clients request.id inst })

/-- McpClientManager::disconnect_client (client.rs lines 354-378): on a
registered identifier, set the status to Disconnected and clear the timestamp,
keep the entry and its server descriptor; on an absent identifier fail with the
not-found error and change nothing. -/
def disconnect_client (st : McpClientManager) (client_id : String) :
    Except ManagerError ClientStatusResponse × McpClientManager :=
  match st.clients.lookup client_id with
  | none => (Except.error (ManagerError.notFound client_id), st)
  | some inst =>
      (Except.ok
        { id := client_id
          status := ClientStatus.disconnected
          error := none
          connected_at := none
          server_info := inst.server_info },
       { clients := mapUpdate st.clients client_id
           (fun i => { i with status := ClientStatus.disconnected, connected_at := none }) })

/-- McpClientManager::delete_client (client.rs lines 381-393). -/
def delete_client (st : McpClientManager) (client_id : String) :
    Except ManagerError Unit × McpClientManager :=
  if mapContains st.clients client_id then
    (Except.ok (), { clients := mapRemove st.clients client_id })
  else
    (Except.error (ManagerError.notFound client_id), st)

/-- McpClientManager::get_client_status (client.rs lines 396-439): read-only
snapshot of one entry. -/
def get_client_status (st : McpClientManager) (client_id : String) :
    Except ManagerError ClientStatusResponse :=
  match st.clients.lookup client_id with
  | none => Except.error (ManagerError.notFound client_id)
  | some inst =>
      Except.ok
        { id := inst.id
          status := inst.status
          error := statusErrorField inst.status
          connected_at := inst.connected_at
          server_info := inst.server_info }

/-- McpClientManager::get_all_client_statuses (client.rs lines 442-462). -/
def get_all_client_statuses (st : McpClientManager) : List ClientStatusResponse :=
  st.clients.map (fun p =>
    { id := p.2.id
      status := p.2.status
      error := statusErrorField p.2.status
      connected_at := p.2.connected_at
      server_info := p.2.server_info })

/-- The first status assignment of the repair path (client.rs line 495):
inst.status becomes Connecting. -/
def setConnecting (st : McpClientManager) (client_id : String) : McpClientManager :=
  { clients := mapUpdate st.clients client_id
      (fun i => { i with status := ClientStatus.connecting }) }

/-- The second status assignment of the repair path (client.rs lines 504-505 and
511-512, identical in the two transport arms): inst.status becomes
Connected and the timestamp is refreshed. -/
def setConnectedNow (st : McpClientManager) (client_id : String) (now : Nat) :
    McpClientManager :=
  { clients := mapUpdate st.clients client_id
      (fun i => { i with status := ClientStatus.connected, connected_at := some now }) }

/-- McpClientManager::repair_client (client.rs lines 465-532): not found fails;
an already-Connected instance is returned as-is with no mutation; otherwise the
instance is first marked Connecting, then - in both transport arms alike -
marked Connected with the fresh timestamp, and the updated snapshot returned. -/
def repair_client (st : McpClientManager) (client_id : String) (now : Nat) :
    Except ManagerError ClientStatusResponse × McpClientManager :=
  match st.clients.lookup client_id with
  | none => (Except.error (ManagerError.notFound client_id), st)
  | some inst =>
      if inst.status = ClientStatus.connected then
        (Except.ok
          { id := inst.id
            status := ClientStatus.connected
            error := none
            connected_at := inst.connected_at
            server_info := inst.server_info }, st)
      else
        let stMid := setConnecting st client_id
        let stFin :=
          match inst.client with
          | McpClientEnum.sse _ _ => setConnectedNow stMid client_id now
          | McpClientEnum.stdio _ _ _ => setConnectedNow stMid client_id now
        (Except.ok
          { id := inst.id
            status := ClientStatus.connected
            error := none
            connected_at := some now
            server_info := inst.server_info }, stFin)

/-- McpClientManager::get_client (client.rs lines 535-552): resolve an instance
for a forwarding operation - not-found when the identifier is absent,
not-connected when the stored status is anything but Connected. -/
def get_client (st : McpClientManager) (client_id : String) :
    Except ManagerError McpClientEnum :=
  match st.clients.lookup client_id with
  | none => Except.error (ManagerError.notFound client_id)
  | some inst =>
      if inst.status.isConnected then Except.ok inst.client
      else Except.error (ManagerError.notConnected client_id)

/-- The argument-normalization step of call_tool (client.rs lines 664-702),
parameterized by the JSON parser (serde_json::from_str, external to this
repository): a string parameter is parsed; when the parse succeeds and yields a
map holding both a name key and an arguments key whose value is itself a map,
only that arguments map is forwarded; when the parse succeeds with any other
shape the parsed value is forwarded; when the parse fails, the original string;
a non-string parameter is forwarded untouched. -/
def normalizeArguments (parse : String → Option Json) (params : Json) : Json :=
  match params with
  | Json.str param_str =>
      match parse param_str with
      | some parsed =>
          match parsed with
          | Json.obj map =>
              if (map.lookup "name").isSome && (map.lookup "arguments").isSome then
                match map.lookup "arguments" with
                | some (Json.obj args) => Json.obj args
                | _ => Json.obj map
              else Json.obj map
          | _ => parsed
      | none => params
  | _ => params

/-- The unwrap condition of the normalizer: the parsed value is a map holding a
name key and an arguments key whose value is a map. -/
def isUnwrapShape : Json → Bool
  | Json.obj map =>
      (map.lookup "name").isSome &&
        (match map.lookup "arguments" with
         | some (Json.obj _) => true
         | _ => false)
  | _ => false

/-- tokio::time::timeout around a remote call, with the Elapsed error replaced
by the SDK NotReady error exactly as both arms of call_tool do (client.rs lines
710-732 and 743-767): a call lasting more than `limit` seconds yields NotReady,
otherwise its own result stands. -/
def runWithTimeout {α : Type} (limit : Nat) (duration : Nat)
    (result : Except McpError α) : Except McpError α :=
  if limit < duration then Except.error McpError.notReady else result

/-- The remote invocation call_tool hands to the SDK client: the tool name and
the normalized arguments. -/
structure RemoteCall where
  toolName : String
  arguments : Json
deriving Repr

/-- McpClientManager::call_tool (client.rs lines 607-881). Arguments beyond the
request: the JSON parser used by the normalizer, the duration in seconds the
remote call would take, and the result it would produce. Returns the operation
result together with the remote invocation performed (`none` when the transport
was never reached). A get_client failure is returned wrapped (the source adds a
prefix around the resolution error, line 634); an empty tool name short-circuits
into a failure envelope; otherwise both transport arms run the call under the
30-second deadline and feed the outcome through the error-mapping table. The
success payload is the remote result itself: the source re-serializes the
result value with serde_json::to_value, which is the identity on an existing
JSON value. -/
def call_tool (st : McpClientManager) (request : ToolCallRequest)
    (parse : String → Option Json) (remoteDuration : Nat)
    (remoteResult : Except McpError Json) :
    Except ManagerError (McpResponse Json) × Option RemoteCall :=
  match get_client st request.client_id with
  | Except.error e => (Except.error (ManagerError.opFailed e), none)
  | Except.ok client =>
      if request.tool_name = "" then
        (Except.ok { success := false, data := none, error := some "工具名称不能为空" }, none)
      else
        let arguments := normalizeArguments parse request.params
        let result :=
          match client with
          | McpClientEnum.sse _ _ => runWithTimeout 30 remoteDuration remoteResult
          | McpClientEnum.stdio _ _ _ => runWithTimeout 30 remoteDuration remoteResult
        match result with
        | Except.ok r =>
            (Except.ok { success := true, data := some r, error := none },
             some { toolName := request.tool_name, arguments := arguments })
        | Except.error e =>
            (Except.ok { success := false, data := none, error := some (renderMcpError e) },
             some { toolName := request.tool_name, arguments := arguments })

/-- A tool as returned by the SDK list_tools call. -/
structure RawTool where
  name : String
  description : String
  input_schema : Json
deriving Repr

/-- McpClientManager::list_tools (client.rs lines 555-604); `remote` is the
outcome the SDK call would produce (both transport arms perform the same call).
The Bool records whether the transport was invoked. -/
def list_tools (st : McpClientManager) (request : FilterRequest)
    (remote : Except McpError (List RawTool)) :
    Except ManagerError (McpResponse (List ToolInfo)) × Bool :=
  match get_client st request.client_id with
  | Except.error e => (Except.error e, false)
  | Except.ok _ =>
      match remote with
      | Except.ok tools =>
          (Except.ok
            { success := true
              data := some (tools.map (fun t =>
                { name := t.name
                  description := t.description
                  parameters_schema := some t.input_schema
                  result_schema := none }))
              error := none }, true)
      | Except.error e =>
          (Except.ok { success := false, data := none, error := some e.display }, true)

/-- A resource as returned by the SDK list_resources call. -/
structure RawResource where
  uri : String
  description : Option String
  mime_type : String
deriving Repr

/-- McpClientManager::list_resources (client.rs lines 884-939). -/
def list_resources (st : McpClientManager) (request : FilterRequest)
    (remote : Except McpError (List RawResource)) :
    Except ManagerError (McpResponse (List ResourceInfo)) × Bool :=
  match get_client st request.client_id with
  | Except.error e => (Except.error e, false)
  | Except.ok _ =>
      match remote with
      | Except.ok resources =>
          (Except.ok
            { success := true
              data := some (resources.map (fun r =>
                { uri := r.uri
                  description := r.description.getD ""
                  content_type := r.mime_type }))
              error := none }, true)
      | Except.error e =>
          (Except.ok { success := false, data := none, error := some e.display }, true)

/-- McpClientManager::read_resource (client.rs lines 942-978); the remote result
is kept as the serialized JSON value the source builds from it. -/
def read_resource (st : McpClientManager) (request : ResourceReadRequest)
    (remote : Except McpError Json) :
    Except ManagerError (McpResponse Json) × Bool :=
  match get_client st request.client_id with
  | Except.error e => (Except.error e, false)
  | Except.ok _ =>
      match remote with
      | Except.ok resource =>
          (Except.ok { success := true, data := some resource, error := none }, true)
      | Except.error e =>
          (Except.ok { success := false, data := none, error := some e.display }, true)

/-- A prompt as returned by the SDK list_prompts call; its argument list is kept
already serialized to JSON as the source stores it. -/
structure RawPrompt where
  name : String
  description : Option String
  arguments : Json
deriving Repr

/-- McpClientManager::list_prompts (client.rs lines 981-1032). -/
def list_prompts (st : McpClientManager) (request : FilterRequest)
    (remote : Except McpError (List RawPrompt)) :
    Except ManagerError (McpResponse (List PromptInfo)) × Bool :=
  match get_client st request.client_id with
  | Except.error e => (Except.error e, false)
  | Except.ok _ =>
      match remote with
      | Except.ok prompts =>
          (Except.ok
            { success := true
              data := some (prompts.map (fun p =>
                { name := p.name
                  description := p.description.getD ""
                  parameters_schema := some p.arguments }))
              error := none }, true)
      | Except.error e =>
          (Except.ok { success := false, data := none, error := some e.display }, true)

/-- McpClientManager::get_prompt (client.rs lines 1035-1080). -/
def get_prompt (st : McpClientManager) (request : PromptRequest)
    (remote : Except McpError Json) :
    Except ManagerError (McpResponse Json) × Bool :=
  match get_client st request.client_id with
  | Except.error e => (Except.error e, false)
  | Except.ok _ =>
      match remote with
      | Except.ok prompt =>
          (Except.ok { success := true, data := some prompt, error := none }, true)
      | Except.error e =>
          (Except.ok { success := false, data := none, error := some e.display }, true)

/-- One manager operation together with the external outcomes it consumes; the
read-only operations are included so that reachability quantifies over every
entry point of the manager. -/
inductive ManagerOp where
  | register (request : InitializeClientRequest) (inheritedPath : Option String)
      (startResult : Except String Unit) (handshake : Except String ServerInfo)
      (now : Nat) : ManagerOp
  | disconnect (client_id : String) : ManagerOp
  | delete (client_id : String) : ManagerOp
  | repair (client_id : String) (now : Nat) : ManagerOp
  | getStatus (client_id : String) : ManagerOp
  | getAllStatuses : ManagerOp
  | opListTools (request : FilterRequest) (remote : Except McpError (List RawTool)) : ManagerOp
  | opCallTool (request : ToolCallRequest) (parse : String → Option Json)
      (remoteDuration : Nat) (remoteResult : Except McpError Json) : ManagerOp
  | opListResources (request : FilterRequest)
      (remote : Except McpError (List RawResource)) : ManagerOp
  | opReadResource (request : ResourceReadRequest) (remote : Except McpError Json) : ManagerOp
  | opListPrompts (request : FilterRequest)
      (remote : Except McpError (List RawPrompt)) : ManagerOp
  | opGetPrompt (request : PromptRequest) (remote : Except McpError Json) : ManagerOp

/-- The registry state after one completed manager operation. Operations taking
the manager by shared reference in the source (status queries and the six
forwarding operations) leave the registry untouched. -/
def applyOp (st : McpClientManager) : ManagerOp → McpClientManager
  | ManagerOp.register request inheritedPath startResult handshake now =>
      (initialize_client st request inheritedPath startResult handshake now).2
  | ManagerOp.disconnect client_id => (disconnect_client st client_id).2
  | ManagerOp.delete client_id => (delete_client st client_id).2
  | ManagerOp.repair client_id now => (repair_client st client_id now).2
  | ManagerOp.getStatus _ => st
  | ManagerOp.getAllStatuses => st
  | ManagerOp.opListTools _ _ => st
  | ManagerOp.opCallTool _ _ _ _ => st
  | ManagerOp.opListResources _ _ => st
  | ManagerOp.opReadResource _ _ => st
  | ManagerOp.opListPrompts _ _ => st
  | ManagerOp.opGetPrompt _ _ => st

/-- A registry state is reachable when some sequence of completed manager
operations produces it from a freshly created manager. -/
def Reachable (st : McpClientManager) : Prop :=
  ∃ ops : List ManagerOp, st = ops.foldl applyOp McpClientManager.new

/-- Per-instance registry invariant: the timestamp is present exactly when the
status is Connected, and the stored status is Connected or Disconnected (in
particular never the Error variant). -/
def instInv (i : ClientInstance) : Bool :=
  (i.connected_at.isSome == i.status.isConnected) &&
    (match i.status with
     | ClientStatus.connected => true
     | ClientStatus.disconnected => true
     | _ => false)

/-- Whole-registry invariant. -/
def stateInv (st : McpClientManager) : Bool :=
  st.clients.all (fun p => instInv p.2)

theorem all_mapInsert {α : Type} (q : α → Bool) (m : List (String × α)) (k : String)
    (v : α) (hm : m.all (fun p => q p.2) = true) (hv : q v = true) :
    (mapInsert m k v).all (fun p => q p.2) = true := by
  induction m with
  | nil => simp [mapInsert, hv]
  | cons hd tl ih =>
      simp only [List.all_cons, Bool.and_eq_true] at hm
      by_cases h : hd.1 = k
      · simp [mapInsert, h, hv, hm.2]
      · simp [mapInsert, h, hm.1, ih hm.2]

theorem all_mapUpdate {α : Type} (q : α → Bool) (m : List (String × α)) (k : String)
    (f : α → α) (hm : m.all (fun p => q p.2) = true) (hf : ∀ a, q (f a) = true) :
    (mapUpdate m k f).all (fun p => q p.2) = true := by
  simp only [mapUpdate, List.all_map, List.all_eq_true] at *
  intro p hp
  by_cases h : p.1 = k
  · simp [Function.comp, h, hf]
  · simp [Function.comp, h, hm p hp]

theorem all_mapRemove {α : Type} (q : α → Bool) (m : List (String × α)) (k : String)
    (hm : m.all (fun p => q p.2) = true) :
    (mapRemove m k).all (fun p => q p.2) = true := by
  simp only [mapRemove, List.all_eq_true] at *
  exact fun p hp => hm p (List.mem_of_mem_filter hp)


theorem lookup_cons {α : Type} (k : String) (hd : String × α) (tl : List (String × α)) :
    List.lookup k (hd :: tl) = if k = hd.1 then some hd.2 else List.lookup k tl := by
  by_cases h : k = hd.1
  · simp [List.lookup, h]
  · simp [List.lookup, h, beq_false_of_ne h]

theorem lookup_all {α : Type} (q : α → Bool) (m : List (String × α)) (k : String)
    (v : α) (hm : m.all (fun p => q p.2) = true) (hl : m.lookup k = some v) :
    q v = true := by
  induction m with
  | nil => simp [List.lookup] at hl
  | cons hd tl ih =>
      simp only [List.all_cons, Bool.and_eq_true] at hm
      rw [lookup_cons] at hl
      by_cases h : k = hd.1
      · rw [if_pos h] at hl
        cases hl
        exact hm.1
      · rw [if_neg h] at hl
        exact ih hm.2 hl

theorem mapUpdate_mapUpdate {α : Type} (m : List (String × α)) (k : String)
    (f g : α → α) :
    mapUpdate (mapUpdate m k g) k f = mapUpdate m k (fun a => f (g a)) := by
  simp only [mapUpdate, List.map_map]
  apply List.map_congr_left
  intro p _
  by_cases hp : p.1 = k
  · simp [Function.comp, hp]
  · simp [Function.comp, hp]

theorem initialize_client_inv (st : McpClientManager)
    (request : InitializeClientRequest) (inheritedPath : Option String)
    (startResult : Except String Unit) (handshake : Except String ServerInfo)
    (now : Nat) (h : stateInv st = true) :
    stateInv (initialize_client st request inheritedPath startResult handshake now).2 = true := by
  unfold initialize_client
  repeat' split
  all_goals dsimp only
  all_goals first
    | exact h
    | (simp only [stateInv]
       refine all_mapInsert instInv st.clients request.id _ h ?_
       rfl)

theorem disconnect_client_inv (st : McpClientManager) (client_id : String)
    (h : stateInv st = true) :
    stateInv (disconnect_client st client_id).2 = true := by
  unfold disconnect_client
  repeat' split
  all_goals dsimp only
  all_goals first
    | exact h
    | (simp only [stateInv]
       refine all_mapUpdate instInv st.clients client_id _ h (fun a => ?_)
       rfl)

theorem delete_client_inv (st : McpClientManager) (client_id : String)
    (h : stateInv st = true) :
    stateInv (delete_client st client_id).2 = true := by
  unfold delete_client
  repeat' split
  all_goals dsimp only
  all_goals first
    | exact h
    | exact all_mapRemove instInv st.clients client_id h

theorem repair_client_inv (st : McpClientManager) (client_id : String) (now : Nat)
    (h : stateInv st = true) :
    stateInv (repair_client st client_id now).2 = true := by
  unfold repair_client
  repeat' split
  all_goals dsimp only
  all_goals first
    | exact h
    | (simp only [stateInv, setConnectedNow, setConnecting, mapUpdate_mapUpdate]
       refine all_mapUpdate instInv st.clients client_id _ h (fun a => ?_)
       rfl)

theorem applyOp_inv (st : McpClientManager) (op : ManagerOp)
    (h : stateInv st = true) : stateInv (applyOp st op) = true := by
  cases op with
  | register request inheritedPath startResult handshake now =>
      exact initialize_client_inv st request inheritedPath startResult handshake now h
  | disconnect client_id => exact disconnect_client_inv st client_id h
  | delete client_id => exact delete_client_inv st client_id h
  | repair client_id now => exact repair_client_inv st client_id now h
  | getStatus _ => exact h
  | getAllStatuses => exact h
  | opListTools _ _ => exact h
  | opCallTool _ _ _ _ => exact h
  | opListResources _ _ => exact h
  | opReadResource _ _ => exact h
  | opListPrompts _ _ => exact h
  | opGetPrompt _ _ => exact h

theorem foldl_applyOp_inv (ops : List ManagerOp) (st : McpClientManager)
    (h : stateInv st = true) : stateInv (ops.foldl applyOp st) = true := by
  induction ops generalizing st with
  | nil => exact h
  | cons op rest ih => exact ih (applyOp st op) (applyOp_inv st op h)

theorem reachable_stateInv (st : McpClientManager) (h : Reachable st) :
    stateInv st = true := by
  obtain ⟨ops, rfl⟩ := h
  exact foldl_applyOp_inv ops McpClientManager.new rfl

theorem lookup_mapUpdate_self {α : Type} (m : List (String × α)) (k : String)
    (f : α → α) : (mapUpdate m k f).lookup k = (m.lookup k).map f := by
  induction m with
  | nil => rfl
  | cons hd tl ih =>
      by_cases h : hd.1 = k
      · simp [mapUpdate, lookup_cons, h]
      · simp only [mapUpdate, List.map_cons, if_neg h]
        rw [lookup_cons, lookup_cons, if_neg (fun hk => h hk.symm),
          if_neg (fun hk => h hk.symm)]
        exact ih

theorem lookup_mapUpdate_ne {α : Type} (m : List (String × α)) (k k2 : String)
    (f : α → α) (hne : k2 ≠ k) :
    (mapUpdate m k f).lookup k2 = m.lookup k2 := by
  induction m with
  | nil => rfl
  | cons hd tl ih =>
      by_cases h : hd.1 = k
      · simp only [mapUpdate, List.map_cons, if_pos h]
        rw [lookup_cons, lookup_cons]
        simp only [h]
        rw [if_neg hne, if_neg hne]
        exact ih
      · simp only [mapUpdate, List.map_cons, if_neg h]
        rw [lookup_cons, lookup_cons]
        by_cases h2 : k2 = hd.1
        · rw [if_pos h2, if_pos h2]
        · rw [if_neg h2, if_neg h2]
          exact ih

theorem lookup_mapInsert_self {α : Type} (m : List (String × α)) (k : String)
    (v : α) : (mapInsert m k v).lookup k = some v := by
  induction m with
  | nil => simp [mapInsert, lookup_cons]
  | cons hd tl ih =>
      by_cases h : hd.1 = k
      · simp [mapInsert, lookup_cons, h]
      · simp only [mapInsert, if_neg h]
        rw [lookup_cons, if_neg (fun hk => h hk.symm)]
        exact ih

theorem mem_mapUpdate {α : Type} (m : List (String × α)) (k : String) (f : α → α)
    (p : String × α) (hp : p ∈ mapUpdate m k f) :
    (∃ q ∈ m, p = (q.1, f q.2)) ∨ p ∈ m := by
  simp only [mapUpdate, List.mem_map] at hp
  obtain ⟨q, hq, hpq⟩ := hp
  by_cases h : q.1 = k
  · rw [if_pos h] at hpq
    exact Or.inl ⟨q, hq, hpq.symm⟩
  · rw [if_neg h] at hpq
    exact Or.inr (hpq ▸ hq)

theorem isConnected_iff (s : ClientStatus) :
    s.isConnected = true ↔ s = ClientStatus.connected := by
  cases s <;> simp [ClientStatus.isConnected]

/-- A concrete server descriptor used by the concrete evaluations below. -/
def sampleServerInfo : ServerInfo :=
  { name := "srv", version := "1.0", capabilities := [] }

/-- A concrete successful SSE registration request. -/
def sampleRequest : InitializeClientRequest :=
  { id := "a"
    transport_type := TransportType.sse
    sse_url := some "u"
    command := none
    args := none
    headers := none
    timeout_secs := none
    client_name := "c"
    client_version := "1" }

/-- The registration operation built from `sampleRequest`, succeeding at
instant 7. -/
def sampleOp : ManagerOp :=
  ManagerOp.register sampleRequest none (Except.ok ()) (Except.ok sampleServerInfo) 7

/-- The registry reached by running `sampleOp` on a fresh manager. -/
def sampleSt : McpClientManager :=
  List.foldl applyOp McpClientManager.new [sampleOp]

/-- The instance `sampleOp` stores. -/
def instA : ClientInstance :=
  { id := "a"
    client := McpClientEnum.sse "u" []
    status := ClientStatus.connected
    connected_at := some 7
    server_info := some sampleServerInfo }

/-- A disconnected variant of `instA`. -/
def instD : ClientInstance :=
  { id := "a"
    client := McpClientEnum.sse "u" []
    status := ClientStatus.disconnected
    connected_at := none
    server_info := some sampleServerInfo }

/-- A registry holding one disconnected instance. -/
def stD : McpClientManager := { clients := [("a", instD)] }

/-- Claim C1: every forwarding operation (list_tools, call_tool, list_resources,
read_resource, list_prompts, get_prompt) invoked with an identifier absent from
the registry fails with the not-found error, and with an identifier present but
not Connected fails with the not-connected error; in both cases the result is
the same for every remote outcome and the transport-invoked flag (or remote
invocation) is none/false - no transport call is attempted - and the error is
one of the two registry errors, independent of the stored transport kind, never
a transport-kind-specific one (call_tool returns the resolution error inside
its wrapper, line 634 of client.rs). -/
theorem forwarding_requires_connected (st : McpClientManager) (id : String)
    (filter : Option String) (uri tname pname : String) (params pparams : Json)
    (parse : String → Option Json) (d : Nat)
    (rTools : Except McpError (List RawTool)) (rCall : Except McpError Json)
    (rRes : Except McpError (List RawResource)) (rRead : Except McpError Json)
    (rPrompts : Except McpError (List RawPrompt)) (rPrompt : Except McpError Json) :
    (st.clients.lookup id = none →
      list_tools st { client_id := id, filter := filter } rTools =
        (Except.error (ManagerError.notFound id), false) ∧
      call_tool st { client_id := id, tool_name := tname, params := params } parse d rCall =
        (Except.error (ManagerError.opFailed (ManagerError.notFound id)), none) ∧
      list_resources st { client_id := id, filter := filter } rRes =
        (Except.error (ManagerError.notFound id), false) ∧
      read_resource st { client_id := id, resource_uri := uri } rRead =
        (Except.error (ManagerError.notFound id), false) ∧
      list_prompts st { client_id := id, filter := filter } rPrompts =
        (Except.error (ManagerError.notFound id), false) ∧
      get_prompt st { client_id := id, prompt_name := pname, params := pparams } rPrompt =
        (Except.error (ManagerError.notFound id), false) ∧
      (ManagerError.opFailed (ManagerError.notFound id)).kind = ErrKind.notFound) ∧
    (∀ inst, st.clients.lookup id = some inst → inst.status.isConnected = false →
      list_tools st { client_id := id, filter := filter } rTools =
        (Except.error (ManagerError.notConnected id), false) ∧
      call_tool st { client_id := id, tool_name := tname, params := params } parse d rCall =
        (Except.error (ManagerError.opFailed (ManagerError.notConnected id)), none) ∧
      list_resources st { client_id := id, filter := filter } rRes =
        (Except.error (ManagerError.notConnected id), false) ∧
      read_resource st { client_id := id, resource_uri := uri } rRead =
        (Except.error (ManagerError.notConnected id), false) ∧
      list_prompts st { client_id := id, filter := filter } rPrompts =
        (Except.error (ManagerError.notConnected id), false) ∧
      get_prompt st { client_id := id, prompt_name := pname, params := pparams } rPrompt =
        (Except.error (ManagerError.notConnected id), false) ∧
      (ManagerError.opFailed (ManagerError.notConnected id)).kind = ErrKind.notConnected) := by
  constructor
  · intro hl
    refine ⟨?_, ?_, ?_, ?_, ?_, ?_, rfl⟩ <;>
      simp [list_tools, call_tool, list_resources, read_resource, list_prompts,
        get_prompt, get_client, hl]
  · intro inst hl hs
    refine ⟨?_, ?_, ?_, ?_, ?_, ?_, rfl⟩ <;>
      simp [list_tools, call_tool, list_resources, read_resource, list_prompts,
        get_prompt, get_client, hl, hs]

/-- Witness of C1 evaluated on concrete registries: a never-registered
identifier on the empty registry, and the disconnected instance of stD. -/
theorem forwarding_requires_connected_witness :
    list_tools McpClientManager.new { client_id := "b", filter := none } (Except.ok []) =
      (Except.error (ManagerError.notFound "b"), false) ∧
    call_tool stD { client_id := "a", tool_name := "t", params := Json.null }
        (fun _ => none) 0 (Except.ok Json.null) =
      (Except.error (ManagerError.opFailed (ManagerError.notConnected "a")), none) :=
  ⟨((forwarding_requires_connected McpClientManager.new "b" none "" "t" "" Json.null
      Json.null (fun _ => none) 0 (Except.ok []) (Except.ok Json.null) (Except.ok [])
      (Except.ok Json.null) (Except.ok []) (Except.ok Json.null)).1 rfl).1,
   ((forwarding_requires_connected stD "a" none "" "t" "" Json.null
      Json.null (fun _ => none) 0 (Except.ok []) (Except.ok Json.null) (Except.ok [])
      (Except.ok Json.null) (Except.ok []) (Except.ok Json.null)).2 instD rfl rfl).2.1⟩

/-- Claim C2: registering an identifier already present fails with the
duplicate-identifier error and returns the registry unchanged (the first
registration untouched); a missing required configuration field, a transport
start failure and a handshake failure each fail with their respective error and
leave the registry unchanged; and in general every failing registration leaves
the registry exactly as it was - registration is all-or-nothing. -/
theorem initialize_client_all_or_nothing (st : McpClientManager)
    (request : InitializeClientRequest) (inheritedPath : Option String)
    (startResult : Except String Unit) (handshake : Except String ServerInfo)
    (now : Nat) :
    (mapContains st.clients request.id = true →
      initialize_client st request inheritedPath startResult handshake now =
        (Except.error (ManagerError.duplicateIdentifier request.id), st)) ∧
    (mapContains st.clients request.id = false →
      request.transport_type = TransportType.sse → request.sse_url = none →
      initialize_client st request inheritedPath startResult handshake now =
        (Except.error ManagerError.missingUrl, st)) ∧
    (mapContains st.clients request.id = false →
      request.transport_type = TransportType.stdio → request.command = none →
      initialize_client st request inheritedPath startResult handshake now =
        (Except.error ManagerError.missingCommand, st)) ∧
    (∀ e url, mapContains st.clients request.id = false →
      request.transport_type = TransportType.sse → request.sse_url = some url →
      startResult = Except.error e →
      initialize_client st request inheritedPath startResult handshake now =
        (Except.error (ManagerError.transportStartFailed e), st)) ∧
    (∀ e url, mapContains st.clients request.id = false →
      request.transport_type = TransportType.sse → request.sse_url = some url →
      startResult = Except.ok () → handshake = Except.error e →
      initialize_client st request inheritedPath startResult handshake now =
        (Except.error (ManagerError.handshakeFailed e), st)) ∧
    (∀ e, (initialize_client st request inheritedPath startResult handshake now).1 =
        Except.error e →
      (initialize_client st request inheritedPath startResult handshake now).2 = st) := by
  refine ⟨?_, ?_, ?_, ?_, ?_, ?_⟩
  · intro hc
    simp [initialize_client, hc]
  · intro hc htt hu
    simp [initialize_client, hc, htt, hu]
  · intro hc htt hu
    simp [initialize_client, hc, htt, hu]
  · intro e url hc htt hu hs
    simp [initialize_client, hc, htt, hu, hs]
  · intro e url hc htt hu hs hh
    simp [initialize_client, hc, htt, hu, hs, hh]
  · intro e
    unfold initialize_client
    repeat' split
    all_goals intro h1
    all_goals first
      | rfl
      | simp at h1

/-- Witness of C2: a duplicate registration against sampleSt, and a failing
registration (missing SSE URL) against the empty registry, both leaving the
registry unchanged. -/
theorem initialize_client_all_or_nothing_witness :
    initialize_client sampleSt sampleRequest none (Except.ok ())
        (Except.ok sampleServerInfo) 9 =
      (Except.error (ManagerError.duplicateIdentifier "a"), sampleSt) ∧
    (initialize_client McpClientManager.new
        { sampleRequest with sse_url := none } none (Except.ok ())
        (Except.ok sampleServerInfo) 9).2 = McpClientManager.new :=
  ⟨(initialize_client_all_or_nothing sampleSt sampleRequest none (Except.ok ())
      (Except.ok sampleServerInfo) 9).1 rfl,
   (initialize_client_all_or_nothing McpClientManager.new
      { sampleRequest with sse_url := none } none (Except.ok ())
      (Except.ok sampleServerInfo) 9).2.2.2.2.2 ManagerError.missingUrl rfl⟩

/-- Claim C3: the Argument Normalizer applied by call_tool is a total pure
function of the caller-supplied params (it is a Lean function Json to Json, so
totality and purity hold by construction): a string parsing to a map with a
name key and an arguments key whose value is a map forwards exactly that
arguments map; a string that does not parse is forwarded unchanged; a string
parsing to any other shape forwards the parsed value; a non-string value is
forwarded unchanged; and on the transport-reaching path call_tool hands the
SDK exactly the normalized parameters. -/
theorem argument_normalizer_spec (parse : String → Option Json) :
    (∀ s m args, parse s = some (Json.obj m) → (m.lookup "name").isSome = true →
      m.lookup "arguments" = some (Json.obj args) →
      normalizeArguments parse (Json.str s) = Json.obj args) ∧
    (∀ s, parse s = none → normalizeArguments parse (Json.str s) = Json.str s) ∧
    (∀ s p, parse s = some p → isUnwrapShape p = false →
      normalizeArguments parse (Json.str s) = p) ∧
    (∀ v, (∀ s, v ≠ Json.str s) → normalizeArguments parse v = v) ∧
    (∀ st req d res inst, st.clients.lookup req.client_id = some inst →
      inst.status.isConnected = true → ¬ req.tool_name = "" →
      (call_tool st req parse d res).2 =
        some { toolName := req.tool_name
               arguments := normalizeArguments parse req.params }) := by
  refine ⟨?_, ?_, ?_, ?_, ?_⟩
  · intro s m args hp h1 h2
    simp [normalizeArguments, hp, h1, h2]
  · intro s hp
    simp [normalizeArguments, hp]
  · intro s p hp hsh
    cases p with
    | obj m =>
        simp only [normalizeArguments, hp]
        simp only [isUnwrapShape] at hsh
        by_cases hn : (m.lookup "name").isSome = true
        · cases ha : m.lookup "arguments" with
          | none => simp [hn, ha]
          | some aj =>
              cases aj with
              | obj a => rw [ha] at hsh; simp [hn] at hsh
              | null => simp [hn, ha]
              | bool b => simp [hn, ha]
              | num n => simp [hn, ha]
              | str s2 => simp [hn, ha]
              | arr l => simp [hn, ha]
        · simp [hn]
    | null => simp [normalizeArguments, hp]
    | bool b => simp [normalizeArguments, hp]
    | num n => simp [normalizeArguments, hp]
    | str s2 => simp [normalizeArguments, hp]
    | arr l => simp [normalizeArguments, hp]
  · intro v hv
    cases v with
    | str s => exact absurd rfl (hv s)
    | null => rfl
    | bool b => rfl
    | num n => rfl
    | arr l => rfl
    | obj m => rfl
  · intro st2 req d res inst hl hs hn
    simp only [call_tool, get_client, hl, hs, if_true]
    rw [if_neg hn]
    cases inst.client with
    | sse url headers =>
        cases hr : runWithTimeout 30 d res with
        | ok r => simp [hr]
        | error e => simp [hr]
    | stdio cmd args env =>
        cases hr : runWithTimeout 30 d res with
        | ok r => simp [hr]
        | error e => simp [hr]

/-- The parser used by the concrete normalizer evaluation: it maps the
claim example string (a JSON envelope with name x and arguments map a=1) to
its parsed value and any other string to a parse failure. -/
def exampleParse : String → Option Json := fun s =>
  if s = "\x7b\"name\":\"x\",\"arguments\":\x7b\"a\":1\x7d\x7d" then
    some (Json.obj [("name", Json.str "x"), ("arguments", Json.obj [("a", Json.num 1)])])
  else none

/-- Witness of C3 on the example inputs of the specification: the envelope
string forwards the bare arguments map, the non-JSON string hello forwards
itself, and the non-string map a=1 passes through unchanged. -/
theorem argument_normalizer_spec_witness :
    normalizeArguments exampleParse
        (Json.str "\x7b\"name\":\"x\",\"arguments\":\x7b\"a\":1\x7d\x7d") =
      Json.obj [("a", Json.num 1)] ∧
    normalizeArguments exampleParse (Json.str "hello") = Json.str "hello" ∧
    normalizeArguments exampleParse (Json.obj [("a", Json.num 1)]) =
      Json.obj [("a", Json.num 1)] :=
  ⟨(argument_normalizer_spec exampleParse).1
      "\x7b\"name\":\"x\",\"arguments\":\x7b\"a\":1\x7d\x7d"
      [("name", Json.str "x"), ("arguments", Json.obj [("a", Json.num 1)])]
      [("a", Json.num 1)] (by rfl) (by rfl) (by rfl),
   (argument_normalizer_spec exampleParse).2.1 "hello" (by rfl),
   (argument_normalizer_spec exampleParse).2.2.2.1 (Json.obj [("a", Json.num 1)])
      (fun s h => by cases h)⟩

/-- Claim C4: call_tool wraps the forwarded remote call in a fixed 30-second
deadline in both transport arms (the instance's transport kind is arbitrary
here): a call exceeding 30 seconds produces the SDK not-ready error - not a
distinct timeout kind - whose rendering through the normal error mapping is the
not-ready/timeout message inside a success=false envelope; a call finishing
within the deadline keeps its own outcome. -/
theorem call_tool_deadline (st : McpClientManager) (req : ToolCallRequest)
    (parse : String → Option Json) (d : Nat) (res : Except McpError Json)
    (inst : ClientInstance) :
    st.clients.lookup req.client_id = some inst →
    inst.status.isConnected = true → ¬ req.tool_name = "" →
    (30 < d →
      (call_tool st req parse d res).1 =
        Except.ok { success := false, data := none,
                    error := some (renderMcpError McpError.notReady) } ∧
      renderMcpError McpError.notReady = "服务未就绪或超时") ∧
    (¬ 30 < d →
      (call_tool st req parse d res).1 =
        (match res with
         | Except.ok r => Except.ok { success := true, data := some r, error := none }
         | Except.error e =>
             Except.ok { success := false, data := none,
                         error := some (renderMcpError e) })) := by
  intro hl hs hn
  constructor
  · intro hd
    refine ⟨?_, rfl⟩
    simp only [call_tool, get_client, hl, hs, if_true]
    rw [if_neg hn]
    cases inst.client with
    | sse url headers => simp [runWithTimeout, hd]
    | stdio cmd args env => simp [runWithTimeout, hd]
  · intro hd
    simp only [call_tool, get_client, hl, hs, if_true]
    rw [if_neg hn]
    cases inst.client with
    | sse url headers =>
        cases res with
        | ok r => simp [runWithTimeout, hd]
        | error e => simp [runWithTimeout, hd]
    | stdio cmd args env =>
        cases res with
        | ok r => simp [runWithTimeout, hd]
        | error e => simp [runWithTimeout, hd]

/-- Witness of C4: on the connected instance of sampleSt, a 31-second remote
call is rendered as the not-ready/timeout envelope even though the remote
result itself would have been a success. -/
theorem call_tool_deadline_witness :
    (call_tool sampleSt { client_id := "a", tool_name := "t", params := Json.null }
        (fun _ => none) 31 (Except.ok Json.null)).1 =
      Except.ok { success := false, data := none, error := some "服务未就绪或超时" } :=
  ((call_tool_deadline sampleSt { client_id := "a", tool_name := "t", params := Json.null }
      (fun _ => none) 31 (Except.ok Json.null) instA rfl rfl (by decide)).1
    (by decide)).1

/-- Claim C5: disconnect of a registered identifier sets the stored status to
Disconnected and clears the timestamp while keeping the entry itself (same id,
transport client and server descriptor) in the registry and leaving every other
entry untouched; a subsequent getStatus still finds the entry and reports
Disconnected with no timestamp; disconnect of an absent identifier fails with
the not-found error and changes nothing. -/
theorem disconnect_client_spec (st : McpClientManager) (id : String) :
    (st.clients.lookup id = none →
      disconnect_client st id = (Except.error (ManagerError.notFound id), st)) ∧
    (∀ inst, st.clients.lookup id = some inst →
      (disconnect_client st id).1 =
        Except.ok { id := id, status := ClientStatus.disconnected, error := none,
                    connected_at := none, server_info := inst.server_info } ∧
      (disconnect_client st id).2.clients.lookup id =
        some { inst with status := ClientStatus.disconnected, connected_at := none } ∧
      (∀ k, k ≠ id → (disconnect_client st id).2.clients.lookup k = st.clients.lookup k) ∧
      get_client_status (disconnect_client st id).2 id =
        Except.ok { id := inst.id, status := ClientStatus.disconnected, error := none,
                    connected_at := none, server_info := inst.server_info }) := by
  constructor
  · intro hl
    simp [disconnect_client, hl]
  · intro inst hl
    refine ⟨?_, ?_, ?_, ?_⟩
    · simp [disconnect_client, hl]
    · simp only [disconnect_client, hl]
      rw [lookup_mapUpdate_self, hl]
      rfl
    · intro k hk
      simp only [disconnect_client, hl]
      exact lookup_mapUpdate_ne st.clients id k _ hk
    · simp only [get_client_status, disconnect_client, hl]
      rw [lookup_mapUpdate_self, hl]
      rfl

/-- Witness of C5: disconnecting the connected instance of sampleSt stores the
disconnected entry, and getStatus afterwards still retrieves it, reporting
Disconnected with no timestamp. -/
theorem disconnect_client_spec_witness :
    (disconnect_client sampleSt "a").2.clients.lookup "a" =
      some { instA with status := ClientStatus.disconnected, connected_at := none } ∧
    get_client_status (disconnect_client sampleSt "a").2 "a" =
      Except.ok { id := "a", status := ClientStatus.disconnected, error := none,
                  connected_at := none, server_info := some sampleServerInfo } :=
  ⟨((disconnect_client_spec sampleSt "a").2 instA rfl).2.1,
   ((disconnect_client_spec sampleSt "a").2 instA rfl).2.2.2⟩

/-- Claim C6: repair of an absent identifier fails with the not-found error and
changes nothing; repair of an already-Connected instance is a no-op returning
the current snapshot (same status, timestamp and server descriptor) with the
registry unchanged; repair of a registered instance in any other status leaves
the registry in the state obtained by first marking the instance Connecting
(setConnecting) and then - in either transport arm - marking it Connected with
the fresh timestamp (setConnectedNow), and returns the Connected snapshot; the
stored entry afterwards is the original one with status Connected and the fresh
timestamp. -/
theorem repair_client_spec (st : McpClientManager) (id : String) (now : Nat) :
    (st.clients.lookup id = none →
      repair_client st id now = (Except.error (ManagerError.notFound id), st)) ∧
    (∀ inst, st.clients.lookup id = some inst → inst.status = ClientStatus.connected →
      repair_client st id now =
        (Except.ok { id := inst.id, status := ClientStatus.connected, error := none,
                     connected_at := inst.connected_at, server_info := inst.server_info },
         st)) ∧
    (∀ inst, st.clients.lookup id = some inst → inst.status ≠ ClientStatus.connected →
      repair_client st id now =
        (Except.ok { id := inst.id, status := ClientStatus.connected, error := none,
                     connected_at := some now, server_info := inst.server_info },
         setConnectedNow (setConnecting st id) id now) ∧
      (setConnectedNow (setConnecting st id) id now).clients.lookup id =
        some { inst with status := ClientStatus.connected, connected_at := some now }) := by
  refine ⟨?_, ?_, ?_⟩
  · intro hl
    simp [repair_client, hl]
  · intro inst hl hc
    simp [repair_client, hl, hc]
  · intro inst hl hc
    constructor
    · simp only [repair_client, hl]
      rw [if_neg hc]
      cases inst.client <;> rfl
    · simp only [setConnectedNow, setConnecting, mapUpdate_mapUpdate]
      rw [lookup_mapUpdate_self, hl]
      rfl

/-- Witness of C6: repairing the connected instance of sampleSt is a no-op;
repairing the disconnected instance of stD (at instant 9) returns a Connected
snapshot with the fresh timestamp and stores the reconnected entry. -/
theorem repair_client_spec_witness :
    repair_client sampleSt "a" 9 =
      (Except.ok { id := "a", status := ClientStatus.connected, error := none,
                   connected_at := some 7, server_info := some sampleServerInfo },
       sampleSt) ∧
    (repair_client stD "a" 9).1 =
      Except.ok { id := "a", status := ClientStatus.connected, error := none,
                  connected_at := some 9, server_info := some sampleServerInfo } ∧
    (repair_client stD "a" 9).2.clients.lookup "a" =
      some { instD with status := ClientStatus.connected, connected_at := some 9 } := by
  refine ⟨?_, ?_, ?_⟩
  · exact (repair_client_spec sampleSt "a" 9).2.1 instA rfl rfl
  · exact congrArg Prod.fst (((repair_client_spec stD "a" 9).2.2 instD rfl (by decide)).1)
  · rw [((repair_client_spec stD "a" 9).2.2 instD rfl (by decide)).1]
    exact ((repair_client_spec stD "a" 9).2.2 instD rfl (by decide)).2

theorem lookup_mapInsert_ne {α : Type} (m : List (String × α)) (k k2 : String)
    (v : α) (hne : k2 ≠ k) :
    (mapInsert m k v).lookup k2 = m.lookup k2 := by
  induction m with
  | nil =>
      simp [mapInsert, lookup_cons, hne]
  | cons hd tl ih =>
      by_cases h : hd.1 = k
      · simp only [mapInsert, if_pos h]
        rw [lookup_cons, lookup_cons]
        simp only [h]
        rw [if_neg hne, if_neg hne]
      · simp only [mapInsert, if_neg h]
        rw [lookup_cons, lookup_cons]
        by_cases h2 : k2 = hd.1
        · rw [if_pos h2, if_pos h2]
        · rw [if_neg h2, if_neg h2]
          exact ih

/-- Claim C7: for a subprocess (stdio) registration the environment handed to
the transport is the caller map merged with the inherited process PATH: a
caller-supplied PATH entry becomes the caller value, a semicolon, then the
inherited value (caller first, concatenated rather than replaced); with no
caller PATH entry the inherited value is inserted; every other caller entry
passes through unchanged; and the stored stdio client records exactly this
merged environment, while an SSE registration is entirely independent of the
inherited PATH (the merge has no effect on the streaming transport, whose
headers are the caller map as given). -/
theorem path_merge_spec (request : InitializeClientRequest) (inheritedPath : String) :
    (∀ callerPath, (request.headers.getD []).lookup "PATH" = some callerPath →
      (mergeEnvPath request.headers (some inheritedPath)).lookup "PATH" =
        some (callerPath ++ ";" ++ inheritedPath)) ∧
    ((request.headers.getD []).lookup "PATH" = none →
      (mergeEnvPath request.headers (some inheritedPath)).lookup "PATH" =
        some inheritedPath) ∧
    (∀ k, k ≠ "PATH" →
      (mergeEnvPath request.headers (some inheritedPath)).lookup k =
        (request.headers.getD []).lookup k) ∧
    (∀ st info now inh cmd, mapContains st.clients request.id = false →
      request.transport_type = TransportType.stdio → request.command = some cmd →
      (initialize_client st request inh (Except.ok ()) (Except.ok info) now).2.clients.lookup
          request.id =
        some { id := request.id
               client := McpClientEnum.stdio cmd (request.args.getD [])
                 (mergeEnvPath request.headers inh)
               status := ClientStatus.connected
               connected_at := some now
               server_info := some info }) ∧
    (∀ st startResult handshake now inh1 inh2,
      request.transport_type = TransportType.sse →
      initialize_client st request inh1 startResult handshake now =
        initialize_client st request inh2 startResult handshake now) ∧
    (∀ st info now inh url, mapContains st.clients request.id = false →
      request.transport_type = TransportType.sse → request.sse_url = some url →
      (initialize_client st request inh (Except.ok ()) (Except.ok info) now).2.clients.lookup
          request.id =
        some { id := request.id
               client := McpClientEnum.sse url (request.headers.getD [])
               status := ClientStatus.connected
               connected_at := some now
               server_info := some info }) := by
  refine ⟨?_, ?_, ?_, ?_, ?_, ?_⟩
  · intro callerPath h
    simp [mergeEnvPath, h, lookup_mapInsert_self]
  · intro h
    simp [mergeEnvPath, h, lookup_mapInsert_self]
  · intro k hk
    unfold mergeEnvPath
    cases h : (request.headers.getD []).lookup "PATH" with
    | none => simp [h, lookup_mapInsert_ne _ _ _ _ hk]
    | some existing => simp [h, lookup_mapInsert_ne _ _ _ _ hk]
  · intro st info now inh cmd hc htt hcmd
    simp only [initialize_client, hc, Bool.false_eq_true, if_false, htt, hcmd]
    exact lookup_mapInsert_self st.clients request.id _
  · intro st startResult handshake now inh1 inh2 htt
    simp [initialize_client, htt]
  · intro st info now inh url hc htt hu
    simp only [initialize_client, hc, Bool.false_eq_true, if_false, htt, hu]
    exact lookup_mapInsert_self st.clients request.id _

/-- A stdio registration request whose caller environment already carries a
PATH entry plus an unrelated entry. -/
def stdioRequest : InitializeClientRequest :=
  { id := "s"
    transport_type := TransportType.stdio
    sse_url := none
    command := some "node"
    args := some ["srv.js"]
    headers := some [("PATH", "p1"), ("X", "y")]
    timeout_secs := none
    client_name := "c"
    client_version := "1" }

/-- Witness of C7: with inherited PATH p0, the caller PATH p1 becomes p1;p0
(caller first), the unrelated entry X survives unchanged, and the stored stdio
client of a successful registration carries the merged environment. -/
theorem path_merge_spec_witness :
    (mergeEnvPath stdioRequest.headers (some "p0")).lookup "PATH" = some "p1;p0" ∧
    (mergeEnvPath stdioRequest.headers (some "p0")).lookup "X" = some "y" ∧
    (initialize_client McpClientManager.new stdioRequest (some "p0") (Except.ok ())
        (Except.ok sampleServerInfo) 7).2.clients.lookup "s" =
      some { id := "s"
             client := McpClientEnum.stdio "node" ["srv.js"]
               (mergeEnvPath stdioRequest.headers (some "p0"))
             status := ClientStatus.connected
             connected_at := some 7
             server_info := some sampleServerInfo } :=
  ⟨(path_merge_spec stdioRequest "p0").1 "p1" rfl,
   (by rw [(path_merge_spec stdioRequest "p0").2.2.1 "X" (by decide)]; rfl),
   (path_merge_spec stdioRequest "p0").2.2.2.1 McpClientManager.new sampleServerInfo 7
      (some "p0") "node" rfl rfl rfl⟩

/-- Claim C8: call_tool on a Connected client with an empty tool name returns a
success=false envelope carrying a non-empty error message, with no remote
invocation performed (the trace is none and the result is the same for every
remote duration and outcome, which are arbitrary here). -/
theorem call_tool_empty_name (st : McpClientManager) (req : ToolCallRequest)
    (parse : String → Option Json) (d : Nat) (res : Except McpError Json)
    (inst : ClientInstance) :
    st.clients.lookup req.client_id = some inst →
    inst.status.isConnected = true → req.tool_name = "" →
    call_tool st req parse d res =
      (Except.ok { success := false, data := none, error := some "工具名称不能为空" },
       none) ∧
    "工具名称不能为空" ≠ "" := by
  intro hl hs hn
  refine ⟨?_, by decide⟩
  simp [call_tool, get_client, hl, hs, hn]

/-- Witness of C8 on the connected instance of sampleSt. -/
theorem call_tool_empty_name_witness :
    call_tool sampleSt { client_id := "a", tool_name := "", params := Json.null }
        (fun _ => none) 0 (Except.ok Json.null) =
      (Except.ok { success := false, data := none, error := some "工具名称不能为空" },
       none) :=
  (call_tool_empty_name sampleSt
      { client_id := "a", tool_name := "", params := Json.null }
      (fun _ => none) 0 (Except.ok Json.null) instA rfl rfl rfl).1

/-- Claim C9: in every registry state reachable by completed manager operations
(register, disconnect, delete, repair, the status queries and the six
forwarding operations), every stored instance carries a timestamp exactly when
its status is Connected. -/
theorem connected_at_iff_connected (st : McpClientManager) (hst : Reachable st)
    (p : String × ClientInstance) (hp : p ∈ st.clients) :
    p.2.connected_at.isSome = true ↔ p.2.status = ClientStatus.connected := by
  have hall := reachable_stateInv st hst
  rw [stateInv, List.all_eq_true] at hall
  have hinst := hall p hp
  rw [instInv, Bool.and_eq_true, beq_iff_eq] at hinst
  rw [hinst.1]
  exact isConnected_iff p.2.status

/-- Witness of C9: the state reached by one successful registration holds the
instance instA, whose timestamp presence matches its Connected status. -/
theorem connected_at_iff_connected_witness :
    instA.connected_at.isSome = true ↔ instA.status = ClientStatus.connected :=
  connected_at_iff_connected sampleSt ⟨[sampleOp], rfl⟩ ("a", instA)
    (by rw [show sampleSt.clients = [("a", instA)] from rfl]
        exact List.mem_singleton.mpr rfl)

theorem lookup_mem {α : Type} (m : List (String × α)) (k : String) (v : α)
    (hl : m.lookup k = some v) : (k, v) ∈ m := by
  induction m with
  | nil => cases hl
  | cons hd tl ih =>
      rw [lookup_cons] at hl
      by_cases h : k = hd.1
      · rw [if_pos h] at hl
        cases hl
        exact h ▸ (List.mem_cons_self hd tl)
      · rw [if_neg h] at hl
        exact List.mem_cons_of_mem hd (ih hl)

/-- Claim C10: no manager operation ever stores the Error status variant: in
every reachable registry state each instance is Connected or Disconnected (in
particular never Error), even the transient state repair passes through
(setConnecting) only adds Connecting, and consequently neither getStatus nor
getAllStatuses ever returns a response whose error field is populated. -/
theorem no_error_status (st : McpClientManager) (hst : Reachable st) :
    (∀ p, p ∈ st.clients →
      p.2.status = ClientStatus.connected ∨ p.2.status = ClientStatus.disconnected) ∧
    (∀ p, p ∈ st.clients → ∀ m, p.2.status ≠ ClientStatus.error m) ∧
    (∀ id2, ∀ p, p ∈ (setConnecting st id2).clients → ∀ m,
      p.2.status ≠ ClientStatus.error m) ∧
    (∀ id2 resp, get_client_status st id2 = Except.ok resp → resp.error = none) ∧
    (∀ resp, resp ∈ get_all_client_statuses st → resp.error = none) := by
  have hall := reachable_stateInv st hst
  rw [stateInv, List.all_eq_true] at hall
  have hshape : ∀ p, p ∈ st.clients →
      p.2.status = ClientStatus.connected ∨ p.2.status = ClientStatus.disconnected := by
    intro p hp
    have hinst := hall p hp
    rw [instInv, Bool.and_eq_true] at hinst
    cases h : p.2.status with
    | connected => exact Or.inl rfl
    | disconnected => exact Or.inr rfl
    | connecting => rw [h] at hinst; exact absurd hinst.2 (by simp)
    | error m => rw [h] at hinst; exact absurd hinst.2 (by simp)
  refine ⟨hshape, ?_, ?_, ?_, ?_⟩
  · intro p hp m
    rcases hshape p hp with h | h <;> simp [h]
  · intro id2 p hp m
    rcases mem_mapUpdate st.clients id2
        (fun i => { i with status := ClientStatus.connecting }) p hp with ⟨q, hq, hpq⟩ | hpmem
    · rw [hpq]
      simp
    · rcases hshape p hpmem with h | h <;> simp [h]
  · intro id2 resp hresp
    unfold get_client_status at hresp
    cases hl : st.clients.lookup id2 with
    | none => rw [hl] at hresp; cases hresp
    | some inst =>
        rw [hl] at hresp
        cases hresp
        have hmem : (id2, inst) ∈ st.clients := lookup_mem st.clients id2 inst hl
        have hsh := hshape (id2, inst) hmem
        dsimp only at hsh
        rcases hsh with h | h <;> simp [statusErrorField, h]
  · intro resp hresp
    unfold get_all_client_statuses at hresp
    rw [List.mem_map] at hresp
    obtain ⟨p, hp, hpr⟩ := hresp
    rw [← hpr]
    rcases hshape p hp with h | h <;> simp [statusErrorField, h]

/-- Witness of C10: in the state reached by one successful registration, the
status query for the registered identifier reports no error. -/
theorem no_error_status_witness :
    ({ id := "a", status := ClientStatus.connected, error := none,
       connected_at := some 7, server_info := some sampleServerInfo } :
        ClientStatusResponse).error = none :=
  (no_error_status sampleSt ⟨[sampleOp], rfl⟩).2.2.2.1 "a"
    { id := "a", status := ClientStatus.connected, error := none,
      connected_at := some 7, server_info := some sampleServerInfo } rfl
